import Mathlib

/-!
Shallow embedding of src/main.py of the heating-oil-gauge repository.

Numbers that the Python program handles as floats (distances in mm and
inches, gallons) are modelled as exact rationals.  Effectful calls
(the ultrasonic sensor read inside get_gallons, and the MQTT publish)
are modelled by explicit outcome values supplied by an environment, and
the publish-loop body is a pure function from the shared state and that
environment to the new shared state plus a trace of the events the body
performs, in order.  Because the scheduler is cooperative, code between
two awaits runs atomically; the states visible to the display task are
exactly the states at the suspension points, and those are recorded in
the observed list of each cycle result.
-/

namespace OilGauge

/-- MAX_INCHES constant, src/main.py line 21. -/
def MAX_INCHES : ℚ := 44

/-- SENSOR_OFFSET constant (1.78), src/main.py line 24. -/
def SENSOR_OFFSET : ℚ := 178 / 100

/-- The 25.4 mm-per-inch divisor used on src/main.py line 74. -/
def MM_PER_INCH : ℚ := 254 / 10

/-- Round a rational to the nearest integer with ties going to the even
neighbour, as the Python built-in round does. -/
def roundHalfEven (x : ℚ) : ℤ :=
  let f := ⌊x⌋
  let r := x - f
  if r < 1 / 2 then f
  else if 1 / 2 < r then f + 1
  else if f % 2 = 0 then f else f + 1

/-- Python round(x, 1): round to one decimal digit. -/
def roundTo1 (x : ℚ) : ℚ := (roundHalfEven (10 * x) : ℚ) / 10

/-- get_gallons, src/main.py lines 72-80.  The raw sensor value
(millimetres, from sensor.distance_mm()) is the argument distance_mm;
the inches_to_gallons lookup table is imported from a module outside
this repository, so it is kept abstract as the argument table. -/
def get_gallons (table : ℚ → ℚ) (distance_mm : ℚ) : ℚ :=
  let distance := distance_mm / MM_PER_INCH
  if 0 + SENSOR_OFFSET ≤ distance ∧ distance ≤ MAX_INCHES + SENSOR_OFFSET then
    table (roundTo1 (MAX_INCHES - distance + SENSOR_OFFSET))
  else 0

/-- is_reading_reasonable, src/main.py lines 83-86.  The Python function
reads the module-level previous_gallons; here that value is passed
explicitly as the first argument. -/
def is_reading_reasonable (previous_gallons new_reading : ℚ) : Bool :=
  decide (|new_reading - previous_gallons| < previous_gallons / 20)

/-- The rejection test on src/main.py line 94:
new_gallons == 0 or not is_reading_reasonable(new_gallons). -/
def firstRejected (previous_gallons new_gallons : ℚ) : Bool :=
  decide (new_gallons = 0) || !is_reading_reasonable previous_gallons new_gallons

/-- Acceptance of a first sample: the negation of the rejection test on
src/main.py line 94 (spec order of arguments: new first, previous second). -/
def accept (new_gallons previous_gallons : ℚ) : Bool :=
  !(firstRejected previous_gallons new_gallons)

/-- The two module-level shared variables gallons and previous_gallons,
src/main.py lines 31-32. -/
structure SharedState where
  gallons : ℚ
  previous_gallons : ℚ
deriving DecidableEq, Repr

/-- Initial shared state: gallons = 0, previous_gallons = 0
(src/main.py lines 31-32). -/
def sharedState0 : SharedState := ⟨0, 0⟩

/-- Outcome of one call to get_gallons(): either a gallons value, or an
exception raised by the sensor driver inside the call. -/
inductive SampleOutcome where
  | ok (gallons : ℚ)
  | error (msg : String)
deriving DecidableEq, Repr

/-- Outcome of the client.publish call on src/main.py line 100. -/
inductive PublishOutcome where
  | ok
  | error (msg : String)
deriving DecidableEq, Repr

/-- True when the publish call returned without raising. -/
def PublishOutcome.isOk : PublishOutcome → Bool
  | .ok => true
  | .error _ => false

/-- The environment of one iteration of the read_distance loop: the
outcomes of the (at most two) get_gallons() calls and of the publish. -/
structure Env where
  sample1 : SampleOutcome
  sample2 : SampleOutcome
  publish : PublishOutcome
deriving DecidableEq, Repr

/-- Events performed by one iteration of the read_distance loop, in
program order. -/
inductive Event where
  | sample (result : SampleOutcome)
  | sleep (seconds : ℚ)
  | commit (gallons previous_gallons : ℚ)
  | publish (value : ℚ) (ok : Bool)
  | log (msg : String)
deriving DecidableEq, Repr

/-- Result of one iteration of the read_distance loop: the shared state
when the iteration ends, the ordered event trace, the shared states
visible at each suspension point (awaits: the retry sleep, the publish,
the body sleep, the finally sleep), and the exception caught by the
except clause, if any. -/
structure CycleResult where
  state : SharedState
  events : List Event
  observed : List SharedState
  caught : Option String
deriving DecidableEq, Repr

/-- src/main.py lines 98-99: previous_gallons = gallons; gallons =
new_gallons.  No await separates the two assignments, so under the
cooperative scheduler they form one atomic update. -/
def commitState (s : SharedState) (new_gallons : ℚ) : SharedState :=
  ⟨new_gallons, s.gallons⟩

/-- The tail of a successful sampling phase, src/main.py lines 98-105:
commit the accepted value, publish it, sleep, and run the finally sleep;
a publish failure is caught on line 102 and still reaches the finally
sleep.  pre and preObs are the events and observed states accumulated
before the commit. -/
def commitPublishSleep (s : SharedState) (pre : List Event)
    (preObs : List SharedState) (n : ℚ) (pub : PublishOutcome) : CycleResult :=
  let s2 := commitState s n
  match pub with
  | .ok =>
      { state := s2
        events := pre ++ [.commit n s.gallons, .publish n true, .sleep 10, .sleep 10]
        observed := preObs ++ [s2, s2, s2]
        caught := none }
  | .error e =>
      { state := s2
        events := pre ++ [.commit n s.gallons, .publish n false,
                          .log ("Problem reading distance: " ++ e), .sleep 10]
        observed := preObs ++ [s2, s2]
        caught := some e }

/-- One iteration of the while-loop of read_distance, src/main.py lines
91-105.  A raised exception anywhere in the try block jumps to the
except clause (log) and then the finally clause (sleep 10). -/
def cycleBody (s : SharedState) (env : Env) : CycleResult :=
  match env.sample1 with
  | .error e =>
      { state := s
        events := [.sample (.error e), .log ("Problem reading distance: " ++ e), .sleep 10]
        observed := [s]
        caught := some e }
  | .ok n1 =>
      if firstRejected s.previous_gallons n1 then
        match env.sample2 with
        | .error e =>
            { state := s
              events := [.sample (.ok n1),
                         .log "Reading was not within tolerance, trying once more.",
                         .sleep 2, .sample (.error e),
                         .log ("Problem reading distance: " ++ e), .sleep 10]
              observed := [s, s]
              caught := some e }
        | .ok n2 =>
            commitPublishSleep s
              [.sample (.ok n1),
               .log "Reading was not within tolerance, trying once more.",
               .sleep 2, .sample (.ok n2)]
              [s] n2 env.publish
      else
        commitPublishSleep s [.sample (.ok n1)] [] n1 env.publish

/-- The read_distance loop run through a finite list of per-cycle
environments: final shared state and the per-cycle results. -/
def runCycles (s : SharedState) : List Env → SharedState × List CycleResult
  | [] => (s, [])
  | env :: rest =>
      let r := cycleBody s env
      let p := runCycles r.state rest
      (p.1, r :: p.2)

/-- The display task body, src/main.py line 67, renders the shared
gallons variable. -/
def displayedGallons (s : SharedState) : ℚ := s.gallons

/-- True of the events that are get_gallons() calls. -/
def isSampleEvent : Event → Bool
  | .sample _ => true
  | _ => false

/-- True of sleeps of the nominal 10-second interval. -/
def isNominalSleep : Event → Bool
  | .sleep t => decide (t = 10)
  | _ => false

/-- Number of get_gallons() calls in a trace. -/
def sampleCount (evs : List Event) : Nat := evs.countP isSampleEvent

/-- Number of 10-second sleeps in a trace. -/
def nominalSleepCount (evs : List Event) : Nat := evs.countP isNominalSleep

/-- The rejection test fails exactly when the reading is non-zero and
within one twentieth of the previous value. -/
lemma firstRejected_eq_false_iff (p n : ℚ) :
    firstRejected p n = false ↔ (n ≠ 0 ∧ |n - p| < p / 20) := by
  simp [firstRejected, is_reading_reasonable]

/-- The rejection test holds exactly when the reading is the zero
sentinel or falls outside the tolerance band around the previous value. -/
lemma firstRejected_eq_true_iff (p n : ℚ) :
    firstRejected p n = true ↔ (n = 0 ∨ ¬(|n - p| < p / 20)) := by
  simp [firstRejected, is_reading_reasonable]

/-- With previous value 0 the tolerance band is empty, so every reading
is rejected. -/
lemma firstRejected_zero (n : ℚ) : firstRejected 0 n = true := by
  have hstep : ¬(|n - (0 : ℚ)| < 0 / 20) := by
    rw [sub_zero, zero_div]
    exact not_lt.mpr (abs_nonneg n)
  simp [firstRejected, is_reading_reasonable, hstep]

/-- The loop processes every environment: no cycle ends the task. -/
lemma runCycles_length (s : SharedState) (envs : List Env) :
    ((runCycles s envs).2).length = envs.length := by
  induction envs generalizing s with
  | nil => rfl
  | cons env rest ih => simp [runCycles, ih]

/-- C4: a reading is accepted by the line-94 test iff it is non-zero and
its absolute difference from the previous value is strictly below 5
percent of that previous value; accept 96 100 holds, accept 80 100
fails, and accept 0 p fails for every p. -/
theorem c4_accept_formula (new previous : ℚ) :
    (accept new previous = true ↔
      (new ≠ 0 ∧ |new - previous| < previous * (5 / 100))) ∧
    accept 96 100 = true ∧ accept 80 100 = false ∧
    ∀ p : ℚ, accept 0 p = false := by
  have hp : previous * (5 / 100) = previous / 20 := by ring
  have hgen : ∀ q r : ℚ, accept q r = true ↔ (q ≠ 0 ∧ |q - r| < r / 20) := by
    intro q r
    simp [accept, firstRejected, is_reading_reasonable, Bool.not_or]
  refine ⟨?_, ?_, ?_, fun p => ?_⟩
  · rw [hp]
    exact hgen new previous
  · rw [hgen]
    norm_num [abs_lt]
  · rw [Bool.eq_false_iff]
    intro hacc
    rw [hgen] at hacc
    norm_num [abs_lt] at hacc
  · simp [accept, firstRejected]

/-- Witness for c4_accept_formula at new = 96, previous = 100. -/
theorem c4_accept_formula_witness : accept 96 100 = true :=
  ((c4_accept_formula 96 100).1).mpr (by norm_num [abs_lt])

/-- C6: when the inches reading lies inside the validity window,
get_gallons resolves the table at round(MAX_INCHES - reading +
SENSOR_OFFSET, 1). -/
theorem c6_conversion (table : ℚ → ℚ) (mm : ℚ)
    (h1 : SENSOR_OFFSET ≤ mm / MM_PER_INCH)
    (h2 : mm / MM_PER_INCH ≤ MAX_INCHES + SENSOR_OFFSET) :
    get_gallons table mm =
      table (roundTo1 (MAX_INCHES - mm / MM_PER_INCH + SENSOR_OFFSET)) := by
  simp only [get_gallons]
  rw [if_pos ⟨by rwa [zero_add], h2⟩]

/-- Witness for c6_conversion at a 254 mm reading (10 inches): the table
argument at 35.8 inches of oil. -/
theorem c6_conversion_witness : get_gallons (fun q => q) 254 = 358 / 10 := by
  rw [c6_conversion (fun q => q) 254
    (by norm_num [SENSOR_OFFSET, MM_PER_INCH])
    (by norm_num [SENSOR_OFFSET, MM_PER_INCH, MAX_INCHES])]
  have harg : MAX_INCHES - 254 / MM_PER_INCH + SENSOR_OFFSET = 1789 / 50 := by
    norm_num [MAX_INCHES, SENSOR_OFFSET, MM_PER_INCH]
  rw [harg]
  show roundTo1 (1789 / 50) = 358 / 10
  have hfloor : ⌊(10 * (1789 / 50 : ℚ))⌋ = 357 := by
    rw [Int.floor_eq_iff]
    norm_num
  simp only [roundTo1, roundHalfEven]
  rw [hfloor]
  rw [if_neg (by norm_num), if_pos (by norm_num)]
  norm_num

/-- C7: when the inches reading lies strictly outside the validity
window, get_gallons returns the sentinel 0. -/
theorem c7_range_rejection (table : ℚ → ℚ) (mm : ℚ)
    (h : mm / MM_PER_INCH < SENSOR_OFFSET ∨
      MAX_INCHES + SENSOR_OFFSET < mm / MM_PER_INCH) :
    get_gallons table mm = 0 := by
  have hneg : ¬(0 + SENSOR_OFFSET ≤ mm / MM_PER_INCH ∧
      mm / MM_PER_INCH ≤ MAX_INCHES + SENSOR_OFFSET) := by
    rcases h with h | h
    · rintro ⟨h1, _⟩
      rw [zero_add] at h1
      exact absurd h1 (not_le.mpr h)
    · rintro ⟨_, h2⟩
      exact absurd h2 (not_le.mpr h)
  simp only [get_gallons]
  rw [if_neg hneg]

/-- Witness for c7_range_rejection at a 0 mm reading. -/
theorem c7_range_rejection_witness : get_gallons (fun q => q) 0 = 0 :=
  c7_range_rejection (fun q => q) 0
    (Or.inl (by norm_num [SENSOR_OFFSET, MM_PER_INCH]))

/-- C1 counterexample: with previous value 0 (the startup state), the
non-zero reading 500 is rejected by the filter and the cycle takes the
retry path (two samples), contradicting the claimed startup acceptance
special case. -/
theorem c1_startup_counterexample :
    accept 500 (0 : ℚ) = false ∧
    sampleCount (cycleBody ⟨0, 0⟩ ⟨.ok 500, .ok 500, .ok⟩).events = 2 := by
  have hrej := firstRejected_zero 500
  constructor
  · simp [accept, hrej]
  · simp [cycleBody, hrej, commitPublishSleep, commitState, sampleCount,
      isSampleEvent, List.countP_cons, List.countP_append]

/-- C1 amended: whenever the previous value used by the filter is 0 (as
at startup), every reading, non-zero ones included, fails the filter
because the tolerance 0 / 20 is 0, so the first sample always triggers
the retry path and the retry sample is committed unconditionally. -/
theorem c1_startup_amended (s : SharedState) (h : s.previous_gallons = 0)
    (n1 n2 : ℚ) (pub : PublishOutcome) :
    accept n1 s.previous_gallons = false ∧
    sampleCount (cycleBody s ⟨.ok n1, .ok n2, pub⟩).events = 2 ∧
    (cycleBody s ⟨.ok n1, .ok n2, pub⟩).state = ⟨n2, s.gallons⟩ := by
  have hrej : firstRejected s.previous_gallons n1 = true := by
    rw [h]
    exact firstRejected_zero n1
  refine ⟨?_, ?_, ?_⟩
  · simp [accept, hrej]
  · cases pub <;>
      simp [cycleBody, hrej, commitPublishSleep, commitState, sampleCount,
        isSampleEvent, List.countP_cons, List.countP_append]
  · cases pub <;> simp [cycleBody, hrej, commitPublishSleep, commitState]

/-- Witness for c1_startup_amended at the initial state with first
sample 500 and retry sample 19. -/
theorem c1_startup_amended_witness :
    accept 500 sharedState0.previous_gallons = false ∧
    sampleCount (cycleBody sharedState0 ⟨.ok 500, .ok 19, .ok⟩).events = 2 ∧
    (cycleBody sharedState0 ⟨.ok 500, .ok 19, .ok⟩).state =
      ⟨19, sharedState0.gallons⟩ :=
  c1_startup_amended sharedState0 rfl 500 19 .ok

/-- C2 counterexample: in the state reached after committing 500 from
the startup state (gallons = 500, previous_gallons = 0), a new sample
of 500 satisfies the claimed acceptance test against the current value,
yet the cycle rejects it and takes the retry path, because the code
filters against previous_gallons. -/
theorem c2_filter_previous_counterexample :
    ((500 : ℚ) ≠ 0 ∧
      |(500 : ℚ) - (SharedState.mk 500 0).gallons| <
        (SharedState.mk 500 0).gallons * (5 / 100)) ∧
    sampleCount (cycleBody ⟨500, 0⟩ ⟨.ok 500, .ok 500, .ok⟩).events = 2 := by
  have hrej := firstRejected_zero 500
  refine ⟨⟨by norm_num, ?_⟩, ?_⟩
  · show |(500 : ℚ) - 500| < 500 * (5 / 100)
    norm_num [abs_lt]
  · simp [cycleBody, hrej, commitPublishSleep, commitState, sampleCount,
      isSampleEvent, List.countP_cons, List.countP_append]

/-- C2 amended: the outlier filter is evaluated against
SharedVolumeState.previous (the previous_gallons variable, the value
current held before the most recent commit), not against the current
accepted value: a first sample avoids the retry path exactly when it is
non-zero and within tolerance of previous_gallons. -/
theorem c2_filter_previous_amended (s : SharedState) (n1 n2 : ℚ)
    (pub : PublishOutcome) :
    sampleCount (cycleBody s ⟨.ok n1, .ok n2, pub⟩).events = 1 ↔
      (n1 ≠ 0 ∧ |n1 - s.previous_gallons| < s.previous_gallons / 20) := by
  cases hrej : firstRejected s.previous_gallons n1 with
  | false =>
      have hR := (firstRejected_eq_false_iff s.previous_gallons n1).mp hrej
      cases pub <;>
        simp [cycleBody, hrej, commitPublishSleep, commitState, sampleCount,
          isSampleEvent, List.countP_cons, List.countP_append, hR]
  | true =>
      have hR : ¬(n1 ≠ 0 ∧ |n1 - s.previous_gallons| < s.previous_gallons / 20) := by
        rw [← firstRejected_eq_false_iff]
        simp [hrej]
      cases pub <;>
        simp [cycleBody, hrej, commitPublishSleep, commitState, sampleCount,
          isSampleEvent, List.countP_cons, List.countP_append, hR]

/-- Witness for c2_filter_previous_amended: with current 0 and previous
100, the sample 96 is within tolerance of previous and the cycle takes
one sample only. -/
theorem c2_filter_previous_amended_witness :
    sampleCount (cycleBody ⟨0, 100⟩ ⟨.ok 96, .ok 0, .ok⟩).events = 1 :=
  (c2_filter_previous_amended ⟨0, 100⟩ 96 0 .ok).mpr
    ⟨by norm_num, by show |(96 : ℚ) - 100| < 100 / 20; norm_num [abs_lt]⟩

/-- C3: when both get_gallons calls return, the cycle takes a second
sample exactly when the first one is rejected by the line-94 test, the
second sample follows the 2-second retry sleep, and the committed value
is the second sample when a retry happened (whatever that value is) and
the first sample otherwise. -/
theorem c3_retry_policy (s : SharedState) (n1 n2 : ℚ) (pub : PublishOutcome) :
    sampleCount (cycleBody s ⟨.ok n1, .ok n2, pub⟩).events =
      (if firstRejected s.previous_gallons n1 then 2 else 1) ∧
    (cycleBody s ⟨.ok n1, .ok n2, pub⟩).state =
      ⟨if firstRejected s.previous_gallons n1 then n2 else n1, s.gallons⟩ ∧
    (firstRejected s.previous_gallons n1 = true →
      ∃ pre post, (cycleBody s ⟨.ok n1, .ok n2, pub⟩).events =
        pre ++ [Event.sleep 2, Event.sample (.ok n2)] ++ post) := by
  cases hrej : firstRejected s.previous_gallons n1 with
  | false =>
      cases pub <;>
        simp [cycleBody, hrej, commitPublishSleep, commitState, sampleCount,
          isSampleEvent, List.countP_cons, List.countP_append]
  | true =>
      cases pub with
      | ok =>
          refine ⟨?_, ?_, fun _ => ?_⟩
          · simp [cycleBody, hrej, commitPublishSleep, commitState, sampleCount,
              isSampleEvent, List.countP_cons, List.countP_append]
          · simp [cycleBody, hrej, commitPublishSleep, commitState]
          · refine ⟨[Event.sample (.ok n1),
              Event.log "Reading was not within tolerance, trying once more."],
              [Event.commit n2 s.gallons, Event.publish n2 true,
               Event.sleep 10, Event.sleep 10], ?_⟩
            simp [cycleBody, hrej, commitPublishSleep]
      | error e =>
          refine ⟨?_, ?_, fun _ => ?_⟩
          · simp [cycleBody, hrej, commitPublishSleep, commitState, sampleCount,
              isSampleEvent, List.countP_cons, List.countP_append]
          · simp [cycleBody, hrej, commitPublishSleep, commitState]
          · refine ⟨[Event.sample (.ok n1),
              Event.log "Reading was not within tolerance, trying once more."],
              [Event.commit n2 s.gallons, Event.publish n2 false,
               Event.log ("Problem reading distance: " ++ e), Event.sleep 10], ?_⟩
            simp [cycleBody, hrej, commitPublishSleep]

/-- Witness for c3_retry_policy: previous value 500, first sample 20
(rejected), retry sample 19 committed. -/
theorem c3_retry_policy_witness :
    sampleCount (cycleBody ⟨500, 500⟩ ⟨.ok 20, .ok 19, .ok⟩).events = 2 ∧
    (cycleBody ⟨500, 500⟩ ⟨.ok 20, .ok 19, .ok⟩).state = ⟨19, 500⟩ ∧
    (∃ pre post, (cycleBody ⟨500, 500⟩ ⟨.ok 20, .ok 19, .ok⟩).events =
      pre ++ [Event.sleep 2, Event.sample (.ok 19)] ++ post) := by
  have hrej : firstRejected (500 : ℚ) 20 = true := by
    rw [firstRejected_eq_true_iff]
    right
    rw [show (20 : ℚ) - 500 = -480 by norm_num]
    norm_num [abs_lt]
  have h := c3_retry_policy ⟨500, 500⟩ 20 19 .ok
  refine ⟨?_, ?_, h.2.2 hrej⟩
  · rw [h.1]
    simp [hrej]
  · rw [h.2.1]
    simp [hrej]

/-- C5: both shared fields start at 0, and every cycle either leaves the
shared state untouched or commits atomically, leaving previous_gallons
equal to the gallons value held immediately before the commit; the
states visible at suspension points are only the pre-cycle state and
the fully committed state, never a half-updated pair. -/
theorem c5_commit_invariant :
    sharedState0 = ⟨0, 0⟩ ∧
    ∀ (s : SharedState) (env : Env),
      ((cycleBody s env).state = s ∨
        (cycleBody s env).state.previous_gallons = s.gallons) ∧
      ∀ st ∈ (cycleBody s env).observed, st = s ∨ st = (cycleBody s env).state := by
  refine ⟨rfl, fun s env => ?_⟩
  obtain ⟨s1, s2, pub⟩ := env
  cases s1 with
  | error e => simp [cycleBody]
  | ok n1 =>
      cases hrej : firstRejected s.previous_gallons n1 with
      | true =>
          cases s2 with
          | error e => simp [cycleBody, hrej]
          | ok n2 =>
              cases pub <;>
                simp [cycleBody, hrej, commitPublishSleep, commitState]
      | false =>
          cases pub <;>
            simp [cycleBody, hrej, commitPublishSleep, commitState]

/-- Witness for c5_commit_invariant: the committed state of the first
cycle, observed at its publish suspension point, is the fully committed
pair. -/
theorem c5_commit_invariant_witness :
    (⟨7, 0⟩ : SharedState) = sharedState0 ∨
    (⟨7, 0⟩ : SharedState) = (cycleBody sharedState0 ⟨.ok 7, .ok 7, .ok⟩).state :=
  (c5_commit_invariant.2 sharedState0 ⟨.ok 7, .ok 7, .ok⟩).2 ⟨7, 0⟩
    (by simp [cycleBody, firstRejected_zero, commitPublishSleep, commitState,
      sharedState0])

/-- C8: whenever a cycle catches an exception, the trace ends with the
log of that exception followed by the finally sleep, and the loop runs
one result per environment, whatever the outcomes, so no exception ends
the task. -/
theorem c8_error_containment (s : SharedState) (env : Env) (e : String)
    (h : (cycleBody s env).caught = some e) :
    (∃ pre, (cycleBody s env).events =
      pre ++ [Event.log ("Problem reading distance: " ++ e), Event.sleep 10]) ∧
    ∀ envs : List Env, ((runCycles s envs).2).length = envs.length := by
  refine ⟨?_, fun envs => runCycles_length s envs⟩
  obtain ⟨s1, s2, pub⟩ := env
  cases s1 with
  | error e1 =>
      simp only [cycleBody] at h ⊢
      obtain rfl : e1 = e := by simpa using h
      exact ⟨[Event.sample (.error e1)], rfl⟩
  | ok n1 =>
      cases hrej : firstRejected s.previous_gallons n1 with
      | true =>
          cases s2 with
          | error e1 =>
              simp only [cycleBody, hrej, if_true] at h ⊢
              obtain rfl : e1 = e := by simpa using h
              exact ⟨[Event.sample (.ok n1),
                Event.log "Reading was not within tolerance, trying once more.",
                Event.sleep 2, Event.sample (.error e1)], rfl⟩
          | ok n2 =>
              cases pub with
              | ok =>
                  simp [cycleBody, hrej, commitPublishSleep] at h
              | error e1 =>
                  simp only [cycleBody, hrej, if_true, commitPublishSleep] at h ⊢
                  obtain rfl : e1 = e := by simpa using h
                  exact ⟨[Event.sample (.ok n1),
                    Event.log "Reading was not within tolerance, trying once more.",
                    Event.sleep 2, Event.sample (.ok n2),
                    Event.commit n2 s.gallons, Event.publish n2 false], by simp⟩
      | false =>
          cases pub with
          | ok =>
              simp [cycleBody, hrej, commitPublishSleep] at h
          | error e1 =>
              simp only [cycleBody, hrej, Bool.false_eq_true, if_false,
                commitPublishSleep] at h ⊢
              obtain rfl : e1 = e := by simpa using h
              exact ⟨[Event.sample (.ok n1),
                Event.commit n1 s.gallons, Event.publish n1 false], by simp⟩

/-- Witness for c8_error_containment: a cycle whose first get_gallons
call raises. -/
theorem c8_error_containment_witness :
    (∃ pre, (cycleBody sharedState0 ⟨.error "sensor down", .ok 0, .ok⟩).events =
      pre ++ [Event.log ("Problem reading distance: " ++ "sensor down"),
        Event.sleep 10]) ∧
    ∀ envs : List Env,
      ((runCycles sharedState0 envs).2).length = envs.length :=
  c8_error_containment sharedState0 ⟨.error "sensor down", .ok 0, .ok⟩
    "sensor down" rfl

/-- C9: a cycle performs two 10-second sleeps exactly when it succeeds
(one at the end of the try body and one in the finally clause) and one
10-second sleep when it catches an exception; the finally sleep is
always the last event. -/
theorem c9_double_sleep (s : SharedState) (env : Env) :
    nominalSleepCount (cycleBody s env).events =
      (if (cycleBody s env).caught = none then 2 else 1) ∧
    ∃ pre, (cycleBody s env).events = pre ++ [Event.sleep 10] := by
  obtain ⟨s1, s2, pub⟩ := env
  cases s1 with
  | error e =>
      refine ⟨?_, ⟨[Event.sample (.error e),
        Event.log ("Problem reading distance: " ++ e)], rfl⟩⟩
      simp [cycleBody, nominalSleepCount, isNominalSleep, List.countP_cons]
  | ok n1 =>
      cases hrej : firstRejected s.previous_gallons n1 with
      | true =>
          cases s2 with
          | error e =>
              refine ⟨?_, ⟨[Event.sample (.ok n1),
                Event.log "Reading was not within tolerance, trying once more.",
                Event.sleep 2, Event.sample (.error e),
                Event.log ("Problem reading distance: " ++ e)], ?_⟩⟩
              · simp [cycleBody, hrej, nominalSleepCount, isNominalSleep,
                  List.countP_cons]
              · simp [cycleBody, hrej]
          | ok n2 =>
              cases pub with
              | ok =>
                  refine ⟨?_, ⟨[Event.sample (.ok n1),
                    Event.log "Reading was not within tolerance, trying once more.",
                    Event.sleep 2, Event.sample (.ok n2),
                    Event.commit n2 s.gallons, Event.publish n2 true,
                    Event.sleep 10], ?_⟩⟩
                  · simp [cycleBody, hrej, commitPublishSleep, nominalSleepCount,
                      isNominalSleep, List.countP_cons, List.countP_append]
                  · simp [cycleBody, hrej, commitPublishSleep]
              | error e =>
                  refine ⟨?_, ⟨[Event.sample (.ok n1),
                    Event.log "Reading was not within tolerance, trying once more.",
                    Event.sleep 2, Event.sample (.ok n2),
                    Event.commit n2 s.gallons, Event.publish n2 false,
                    Event.log ("Problem reading distance: " ++ e)], ?_⟩⟩
                  · simp [cycleBody, hrej, commitPublishSleep, nominalSleepCount,
                      isNominalSleep, List.countP_cons, List.countP_append]
                  · simp [cycleBody, hrej, commitPublishSleep]
      | false =>
          cases pub with
          | ok =>
              refine ⟨?_, ⟨[Event.sample (.ok n1),
                Event.commit n1 s.gallons, Event.publish n1 true,
                Event.sleep 10], ?_⟩⟩
              · simp [cycleBody, hrej, commitPublishSleep, nominalSleepCount,
                  isNominalSleep, List.countP_cons, List.countP_append]
              · simp [cycleBody, hrej, commitPublishSleep]
          | error e =>
              refine ⟨?_, ⟨[Event.sample (.ok n1),
                Event.commit n1 s.gallons, Event.publish n1 false,
                Event.log ("Problem reading distance: " ++ e)], ?_⟩⟩
              · simp [cycleBody, hrej, commitPublishSleep, nominalSleepCount,
                  isNominalSleep, List.countP_cons, List.countP_append]
              · simp [cycleBody, hrej, commitPublishSleep]

/-- C10: when both samples return, the cycle commits the accepted value
and the commit event immediately precedes the publish attempt in the
trace; whatever the publish outcome, the post-cycle shared state keeps
the committed value, which is what the display task renders. -/
theorem c10_commit_before_publish (s : SharedState) (n1 n2 : ℚ)
    (pub : PublishOutcome) :
    (cycleBody s ⟨.ok n1, .ok n2, pub⟩).state =
      ⟨if firstRejected s.previous_gallons n1 then n2 else n1, s.gallons⟩ ∧
    displayedGallons (cycleBody s ⟨.ok n1, .ok n2, pub⟩).state =
      (if firstRejected s.previous_gallons n1 then n2 else n1) ∧
    ∃ pre post, (cycleBody s ⟨.ok n1, .ok n2, pub⟩).events =
      pre ++ [Event.commit (if firstRejected s.previous_gallons n1 then n2 else n1)
          s.gallons,
        Event.publish (if firstRejected s.previous_gallons n1 then n2 else n1)
          pub.isOk] ++ post := by
  cases hrej : firstRejected s.previous_gallons n1 with
  | true =>
      cases pub with
      | ok =>
          refine ⟨?_, ?_, ⟨[Event.sample (.ok n1),
            Event.log "Reading was not within tolerance, trying once more.",
            Event.sleep 2, Event.sample (.ok n2)],
            [Event.sleep 10, Event.sleep 10], ?_⟩⟩ <;>
            simp [cycleBody, hrej, commitPublishSleep, commitState,
              displayedGallons, PublishOutcome.isOk]
      | error e =>
          refine ⟨?_, ?_, ⟨[Event.sample (.ok n1),
            Event.log "Reading was not within tolerance, trying once more.",
            Event.sleep 2, Event.sample (.ok n2)],
            [Event.log ("Problem reading distance: " ++ e), Event.sleep 10], ?_⟩⟩ <;>
            simp [cycleBody, hrej, commitPublishSleep, commitState,
              displayedGallons, PublishOutcome.isOk]
  | false =>
      cases pub with
      | ok =>
          refine ⟨?_, ?_, ⟨[Event.sample (.ok n1)],
            [Event.sleep 10, Event.sleep 10], ?_⟩⟩ <;>
            simp [cycleBody, hrej, commitPublishSleep, commitState,
              displayedGallons, PublishOutcome.isOk]
      | error e =>
          refine ⟨?_, ?_, ⟨[Event.sample (.ok n1)],
            [Event.log ("Problem reading distance: " ++ e), Event.sleep 10], ?_⟩⟩ <;>
            simp [cycleBody, hrej, commitPublishSleep, commitState,
              displayedGallons, PublishOutcome.isOk]

end OilGauge
